import Mathlib

/-!
Verification development for the finance-agent-demo repository.

The repository has two single-page chat pipelines:
  - local_web_search.py  : Tavily search + local (Ollama) streamed generation
  - web_search_agent.py  : Perplexity fused search-and-answer backend

Below, each Python function or inline pipeline block is embedded as a Lean
definition; network effects are made explicit as outcome parameters
(TavilyOutcome, HttpOutcome) so a per-turn run is a pure function of the
pre-turn history, the UI inputs and the network outcome.
-/

namespace FinanceAgent

/-- One Tavily search result, per local_web_search.py lines 74-76:
a dict with title, url and content fields. -/
structure SearchResult where
  title : String
  url : String
  content : String
deriving Repr, DecidableEq

/-- One entry of st.session_state.messages: a role, a content string and,
for assistant turns, a citations list (user turns carry no citations key;
local_web_search.py lines 146, 189-193; web_search_agent.py lines 94, 154-158). -/
structure Turn where
  role : String
  content : String
  citations : Option (List String)
deriving Repr, DecidableEq

/-- The user turn appended on submission (both variants append
a role-user, content-prompt dict with no citations key). -/
def userTurn (prompt : String) : Turn :=
  { role := "user", content := prompt, citations := none }

/-- Outcome of the tavily.search call inside search_web: either the parsed
results list, or a raised exception with message msg (caught at line 79). -/
inductive TavilyOutcome where
  | ok (results : List SearchResult)
  | exn (msg : String)
deriving Repr, DecidableEq

/-- The block appended to context_text for one result
(local_web_search.py line 75). -/
def formatResultBlock (r : SearchResult) : String :=
  "\n---\nTitle: " ++ r.title ++ "\nURL: " ++ r.url ++ "\nContent: " ++ r.content ++ "\n"

/-- The citation string appended for one result (local_web_search.py line 76). -/
def formatCitation (r : SearchResult) : String :=
  "[" ++ r.title ++ "](" ++ r.url ++ ")"

/-- search_web, local_web_search.py lines 57-80: on a successful call it folds
the results into a context string and a parallel citations list starting from
an empty string and empty list; on an exception it returns None for the
context and a one-element list carrying the failure message. -/
def search_web : TavilyOutcome → Option String × List String
  | .ok results =>
      let acc := results.foldl
        (fun (acc : String × List String) r =>
          (acc.1 ++ formatResultBlock r, acc.2 ++ [formatCitation r]))
        ("", [])
      (some acc.1, acc.2)
  | .exn msg => (none, ["Search Error: " ++ msg])

/-- The Python truthiness test of the caller, line 158: the expression
evaluates to True when context is None and also when it is the empty
string. -/
def isFalsyContext : Option String → Bool
  | none => true
  | some s => s.isEmpty

/-- One streamed Ollama chunk: the caller reads the content field of the
message field (local_web_search.py line 173). -/
structure ChunkMessage where
  content : String
deriving Repr, DecidableEq

structure OllamaChunk where
  message : ChunkMessage
deriving Repr, DecidableEq

/-- The streaming accumulation loop, local_web_search.py lines 167-174:
full_response starts empty and each chunk content is appended in order. -/
def drainStream (stream : List OllamaChunk) : String :=
  stream.foldl (fun full ch => full ++ ch.message.content) ""

/-- Left-to-right concatenation of a chunk sequence C1 ++ ... ++ Cn,
the specified drained answer. -/
def concatChunks : List String → String
  | [] => ""
  | c :: cs => c ++ concatChunks cs

/-- Observable outcome of one submitted turn of the local pipeline. -/
structure LocalResult where
  messages : List Turn
  searchCalled : Bool
  errorShown : Option String
  halted : Bool
  generatorInvoked : Bool
  rendered : Option String
deriving Repr, DecidableEq

/-- The per-turn pipeline of local_web_search.py lines 139-193.
Line 141: an empty key is falsy, so the turn aborts before search_web is
called, before the user turn is appended. Line 146: the user turn is
appended. Line 156: search_web runs. Line 158: the falsy test on context
halts the turn with an error before ollama is invoked. Otherwise lines
167-177 drain the stream and lines 188-193 append the assistant turn
carrying the citations from this search. -/
def local_turn (messages : List Turn) (prompt tavily_key : String)
    (net : TavilyOutcome) (stream : List OllamaChunk) : LocalResult :=
  if tavily_key.isEmpty then
    { messages := messages, searchCalled := false,
      errorShown := some "Please enter your Tavily API Key in the sidebar.",
      halted := true, generatorInvoked := false, rendered := none }
  else if isFalsyContext (search_web net).1 then
    { messages := messages ++ [userTurn prompt], searchCalled := true,
      errorShown := some "Could not retrieve search results.",
      halted := true, generatorInvoked := false, rendered := none }
  else
    { messages := messages ++ [userTurn prompt,
        { role := "assistant", content := drainStream stream,
          citations := some (search_web net).2 }],
      searchCalled := true, errorShown := none, halted := false,
      generatorInvoked := true, rendered := some (drainStream stream) }

/-- The parsed JSON body of a Perplexity response, holding the fields the
caller reads (web_search_agent.py lines 137-142): an optional error key,
the content of the message of the first choice, and an optional citations
key. -/
structure ApiBody where
  error : Option String
  choices0_message_content : String
  citations : Option (List String)
deriving Repr, DecidableEq

/-- An HTTP response as seen by query_perplexity: a status code, the parsed
JSON body (none when the body is not JSON, in which case the json call
raises with jsonErrMsg), and the message of the exception raise_for_status
would raise on a non-success status. -/
structure HttpResponse where
  status : Nat
  body : Option ApiBody
  httpErrMsg : String
  jsonErrMsg : String
deriving Repr, DecidableEq

/-- Outcome of the requests.post call inside query_perplexity: either the
call itself raised (connection failure), or a response came back. -/
inductive HttpOutcome where
  | exn (msg : String)
  | resp (r : HttpResponse)
deriving Repr, DecidableEq

/-- Modelled from the spec: the semantics of response.raise_for_status,
a library call not part of this repository — per the spec it raises exactly
on a non-2xx response status. -/
def is2xx (status : Nat) : Bool :=
  decide (200 ≤ status) && decide (status < 300)

/-- The return value of query_perplexity: either the parsed response JSON,
or the normalized error dict built in the except branch. -/
inductive PResult where
  | body (b : ApiBody)
  | errorDict (msg : String)
deriving Repr, DecidableEq

/-- query_perplexity, web_search_agent.py lines 47-65: posts the payload;
any exception raised inside the try block — the post itself, the
raise_for_status on a non-2xx status, or the json parse — is caught and
normalized to an error dict carrying the failure message; otherwise the
parsed JSON is returned as-is. -/
def query_perplexity (net : HttpOutcome) : PResult :=
  match net with
  | .exn msg => .errorDict msg
  | .resp r =>
      if is2xx r.status then
        match r.body with
        | some b => .body b
        | none => .errorDict r.jsonErrMsg
      else .errorDict r.httpErrMsg

/-- The caller branching test on the result, line 137: the error key is
present on every normalized error dict and on a parsed body exactly when
that body has an error key. -/
def hasErrorKey : PResult → Bool
  | .errorDict _ => true
  | .body b => b.error.isSome

/-- The request payload of query_perplexity, lines 54-58: model name,
messages and the return_citations flag. -/
structure Payload where
  model : String
  messages : List (String × String)
  return_citations : Bool
deriving Repr, DecidableEq

/-- The model options of the sidebar selectbox, web_search_agent.py
lines 32-36. -/
def modelOptions : List String := ["sonar", "sonar-reasoning"]

/-- The system instruction of web_search_agent.py lines 112-126, inserted
as the first API message. -/
def system_instruction : String :=
  "\n            You are a Senior Equity Research Associate assisting a Portfolio Manager. \n            Your goal is to provide high-precision fundamental analysis based on real-time web search.\n\n            ### EXECUTION GUIDELINES:\n            1. **Sources**: STRICTLY prioritize official Investor Relations (IR), SEC/Regulatory filings (10-K/10-Q), and Tier-1 financial news (Bloomberg, Reuters, FT, WSJ). Ignore generic blogs.\n            2. **Format**: Minimize text. Use Markdown tables for financial data. \n            3. **Tone**: Objective, professional, and direct. No conversational filler (e.g., \"Here is what I found\").\n\n            ### OUTPUT STRUCTURE:\n            - **Executive Summary**: High-level thesis/status (max 50 words).\n            - **Key Fundamentals**: Markdown table (Required for: Revenue, EBITDA, Margins, EPS, YoY growth).\n            - **Corporate Developments**: Strategic updates, M&A, or leadership changes.\n            - **Risks/Catalysts**: Bullet points only.\n            "

/-- The projection used by the api_messages comprehension, lines 106-109:
only the role and content fields of a stored turn are read. -/
def roleContent (t : Turn) : String × String := (t.role, t.content)

/-- The payload assembled per turn, lines 106-135: the comprehension maps
roleContent over the whole post-append history, the system instruction is
inserted at position 0, and return_citations is set. -/
def remotePayload (messages : List Turn) (prompt model : String) : Payload :=
  { model := model,
    messages := ("system", system_instruction)
      :: (messages ++ [userTurn prompt]).map roleContent,
    return_citations := true }

/-- Observable outcome of one submitted turn of the remote pipeline. -/
structure RemoteResult where
  messages : List Turn
  payload : Option Payload
  errorShown : Option String
  halted : Bool
  rendered : Option String
deriving Repr, DecidableEq

/-- The per-turn pipeline of web_search_agent.py lines 86-158.
Line 89: an empty key aborts before the user turn is appended and before
any network call. Line 94: the user turn is appended. Lines 106-135: the
payload is assembled and sent. Line 137: the caller branches on the error
key — the error branch shows the error but execution continues to line 154,
which appends an assistant turn whose content and citations still hold
their initializers (empty string, empty list). The success branch extracts
the content and citations of the response, renders them, and appends them
as the assistant turn. -/
def remote_turn (messages : List Turn) (prompt api_key model : String)
    (net : HttpOutcome) : RemoteResult :=
  if api_key.isEmpty then
    { messages := messages, payload := none,
      errorShown := some "⚠️ Please enter your API Key in the sidebar to proceed.",
      halted := true, rendered := none }
  else
    match query_perplexity net with
    | .errorDict m =>
        { messages := messages ++ [userTurn prompt,
            { role := "assistant", content := "", citations := some [] }],
          payload := some (remotePayload messages prompt model),
          errorShown := some ("API Error: " ++ m),
          halted := false, rendered := none }
    | .body b =>
        match b.error with
        | some m =>
            { messages := messages ++ [userTurn prompt,
                { role := "assistant", content := "", citations := some [] }],
              payload := some (remotePayload messages prompt model),
              errorShown := some ("API Error: " ++ m),
              halted := false, rendered := none }
        | none =>
            { messages := messages ++ [userTurn prompt,
                { role := "assistant", content := b.choices0_message_content,
                  citations := some (b.citations.getD []) }],
              payload := some (remotePayload messages prompt model),
              errorShown := none, halted := false,
              rendered := some b.choices0_message_content }

/-- The citations the local search produced for the current turn. -/
def localTurnCitations (net : TavilyOutcome) : List String :=
  (search_web net).2

/-- The citations attributable to the current remote turn: those of the API
response on success, the empty initializer otherwise. -/
def remoteTurnCitations (net : HttpOutcome) : List String :=
  match query_perplexity net with
  | .errorDict _ => []
  | .body b =>
      match b.error with
      | some _ => []
      | none => b.citations.getD []

/-! ### Helper lemmas -/

lemma search_web_foldl (R : List SearchResult) (ctx : String) (cs : List String) :
    R.foldl (fun (acc : String × List String) r =>
      (acc.1 ++ formatResultBlock r, acc.2 ++ [formatCitation r])) (ctx, cs)
    = (ctx ++ concatChunks (R.map formatResultBlock), cs ++ R.map formatCitation) := by
  induction R generalizing ctx cs with
  | nil => simp [concatChunks, String.append_empty]
  | cons r rs ih => simp [concatChunks, ih, String.append_assoc]

lemma search_web_ok (R : List SearchResult) :
    search_web (.ok R)
      = (some (concatChunks (R.map formatResultBlock)), R.map formatCitation) := by
  simp [search_web, search_web_foldl, String.empty_append]

lemma drainStream_foldl (stream : List OllamaChunk) (acc : String) :
    stream.foldl (fun full ch => full ++ ch.message.content) acc
    = acc ++ concatChunks (stream.map fun ch => ch.message.content) := by
  induction stream generalizing acc with
  | nil => simp [concatChunks, String.append_empty]
  | cons c cs ih => simp [concatChunks, ih, String.append_assoc]

lemma drainStream_eq (stream : List OllamaChunk) :
    drainStream stream = concatChunks (stream.map fun ch => ch.message.content) := by
  simp [drainStream, drainStream_foldl, String.empty_append]

lemma remote_turn_payload_some (messages : List Turn) (prompt key model : String)
    (net : HttpOutcome) (h : key.isEmpty = false) :
    (remote_turn messages prompt key model net).payload
      = some (remotePayload messages prompt model) := by
  cases hq : query_perplexity net with
  | errorDict m => simp [remote_turn, h, hq]
  | body b => cases hb : b.error <;> simp [remote_turn, h, hq, hb]

lemma remote_turn_payload_none (messages : List Turn) (prompt key model : String)
    (net : HttpOutcome) (h : key.isEmpty = true) :
    (remote_turn messages prompt key model net).payload = none := by
  simp [remote_turn, h]

/-! ### Claim theorems -/

/-- Claim C1: the claim says a successful search with zero results yields
an empty context and empty citations, the caller does not treat that as an
error, and the generator still runs. The first part holds, but the caller
conflates the empty string with the failure value: at the failing input the
turn halts with a search error and the generator is never invoked. -/
theorem C1_zero_results_pipeline_halts :
    search_web (.ok []) = (some "", []) ∧
    (local_turn [] "q" "k" (.ok []) []).halted = true ∧
    (local_turn [] "q" "k" (.ok []) []).generatorInvoked = false ∧
    (local_turn [] "q" "k" (.ok []) []).errorShown
      = some "Could not retrieve search results." := by
  decide

/-- Claim C5: for every finite chunk sequence the fully drained local
answer, as rendered and as stored in the appended assistant turn, equals
the left-to-right concatenation of the chunk contents: no loss, no
reordering. -/
theorem C5_drained_answer_is_chunk_concat
    (messages : List Turn) (prompt tavily_key : String)
    (net : TavilyOutcome) (stream : List OllamaChunk)
    (hkey : tavily_key.isEmpty = false)
    (hctx : isFalsyContext (search_web net).1 = false) :
    (local_turn messages prompt tavily_key net stream).rendered
      = some (concatChunks (stream.map fun ch => ch.message.content)) ∧
    (local_turn messages prompt tavily_key net stream).messages
      = messages ++ [userTurn prompt,
          { role := "assistant",
            content := concatChunks (stream.map fun ch => ch.message.content),
            citations := some (search_web net).2 }] := by
  simp [local_turn, hkey, hctx, drainStream_eq]

/-- Witness for C5 at a concrete three-chunk stream. -/
theorem C5_witness :
    (("k" : String).isEmpty = false) ∧
    (isFalsyContext (search_web (.ok [⟨"T", "U", "C"⟩])).1 = false) ∧
    ((local_turn [] "q" "k" (.ok [⟨"T", "U", "C"⟩])
        [⟨⟨"Rev"⟩⟩, ⟨⟨"enue up"⟩⟩, ⟨⟨" 10%."⟩⟩]).rendered
      = some (concatChunks
          ([(⟨⟨"Rev"⟩⟩ : OllamaChunk), ⟨⟨"enue up"⟩⟩, ⟨⟨" 10%."⟩⟩].map
            fun ch => ch.message.content)) ∧
    (local_turn [] "q" "k" (.ok [⟨"T", "U", "C"⟩])
        [⟨⟨"Rev"⟩⟩, ⟨⟨"enue up"⟩⟩, ⟨⟨" 10%."⟩⟩]).messages
      = [] ++ [userTurn "q",
          { role := "assistant",
            content := concatChunks
              ([(⟨⟨"Rev"⟩⟩ : OllamaChunk), ⟨⟨"enue up"⟩⟩, ⟨⟨" 10%."⟩⟩].map
                fun ch => ch.message.content),
            citations := some (search_web (.ok [⟨"T", "U", "C"⟩])).2 }]) :=
  ⟨by decide, by decide,
    C5_drained_answer_is_chunk_concat [] "q" "k" (.ok [⟨"T", "U", "C"⟩])
      [⟨⟨"Rev"⟩⟩, ⟨⟨"enue up"⟩⟩, ⟨⟨" 10%."⟩⟩] (by decide) (by decide)⟩

/-- Claim C6: the search formatting builds one citation per result, in the
order of the result sequence, each carrying the title as link label and the
URL as target, and the citation list has the same length as the result
list. -/
theorem C6_citations_one_per_result_in_order (R : List SearchResult) :
    (search_web (.ok R)).2
      = R.map (fun r => "[" ++ r.title ++ "](" ++ r.url ++ ")") ∧
    (search_web (.ok R)).2.length = R.length := by
  refine ⟨?_, ?_⟩ <;> simp [search_web_ok, formatCitation]

/-- Claim C7: when the Tavily call raises, search_web returns the failure
value carrying the message, the pipeline shows a visible error and halts
before the generator: no answer is produced and no assistant turn is
appended for that turn. -/
theorem C7_search_failure_halts
    (messages : List Turn) (prompt tavily_key msg : String)
    (stream : List OllamaChunk)
    (hkey : tavily_key.isEmpty = false) :
    search_web (.exn msg) = (none, ["Search Error: " ++ msg]) ∧
    (local_turn messages prompt tavily_key (.exn msg) stream).errorShown
      = some "Could not retrieve search results." ∧
    (local_turn messages prompt tavily_key (.exn msg) stream).halted = true ∧
    (local_turn messages prompt tavily_key (.exn msg) stream).generatorInvoked = false ∧
    (local_turn messages prompt tavily_key (.exn msg) stream).rendered = none ∧
    (local_turn messages prompt tavily_key (.exn msg) stream).messages
      = messages ++ [userTurn prompt] := by
  refine ⟨rfl, ?_, ?_, ?_, ?_, ?_⟩ <;>
    simp [local_turn, hkey, search_web, isFalsyContext]

/-- Witness for C7 at a concrete failure message. -/
theorem C7_witness :
    (("k" : String).isEmpty = false) ∧
    (search_web (.exn "timeout") = (none, ["Search Error: " ++ "timeout"]) ∧
    (local_turn [] "q" "k" (.exn "timeout") []).errorShown
      = some "Could not retrieve search results." ∧
    (local_turn [] "q" "k" (.exn "timeout") []).halted = true ∧
    (local_turn [] "q" "k" (.exn "timeout") []).generatorInvoked = false ∧
    (local_turn [] "q" "k" (.exn "timeout") []).rendered = none ∧
    (local_turn [] "q" "k" (.exn "timeout") []).messages
      = [] ++ [userTurn "q"]) :=
  ⟨by decide, C7_search_failure_halts [] "q" "k" "timeout" [] (by decide)⟩

/-- Counterexample to claim C2: with the fused backend failing with a rate
limit message, the post-turn history is not the pre-turn history plus the
user turn alone — an assistant turn with empty content and empty citation
list is appended as well, because the history append sits outside the
error branch. -/
theorem C2_counterexample :
    (remote_turn [] "q" "k" "sonar" (.exn "rate limited")).messages
      = [userTurn "q",
         { role := "assistant", content := "", citations := some [] }] ∧
    (remote_turn [] "q" "k" "sonar" (.exn "rate limited")).messages
      ≠ [userTurn "q"] := by
  decide

/-- Claim C2 as amended: when the fused backend result carries an error
key, a visible error carrying the failure description is surfaced and the
history afterwards equals the history from before the call plus the user
turn and one assistant turn with empty content and empty citation list;
nothing is rendered as an answer. -/
theorem C2_error_surfaced_empty_assistant_appended
    (messages : List Turn) (prompt key model : String) (net : HttpOutcome)
    (hkey : key.isEmpty = false)
    (herr : hasErrorKey (query_perplexity net) = true) :
    ∃ m, (remote_turn messages prompt key model net).errorShown
        = some ("API Error: " ++ m) ∧
      (remote_turn messages prompt key model net).messages
        = messages ++ [userTurn prompt,
            { role := "assistant", content := "", citations := some [] }] ∧
      (remote_turn messages prompt key model net).rendered = none := by
  cases hq : query_perplexity net with
  | errorDict m => exact ⟨m, by simp [remote_turn, hkey, hq]⟩
  | body b =>
      cases hb : b.error with
      | none => rw [hq] at herr; simp [hasErrorKey, hb] at herr
      | some m => exact ⟨m, by simp [remote_turn, hkey, hq, hb]⟩

/-- Witness for the amended C2 at the rate limited scenario. -/
theorem C2_witness :
    (("k" : String).isEmpty = false) ∧
    (hasErrorKey (query_perplexity (.exn "rate limited")) = true) ∧
    (∃ m, (remote_turn [] "q" "k" "sonar" (.exn "rate limited")).errorShown
        = some ("API Error: " ++ m) ∧
      (remote_turn [] "q" "k" "sonar" (.exn "rate limited")).messages
        = [] ++ [userTurn "q",
            { role := "assistant", content := "", citations := some [] }] ∧
      (remote_turn [] "q" "k" "sonar" (.exn "rate limited")).rendered = none) :=
  ⟨by decide, by decide,
    C2_error_surfaced_empty_assistant_appended [] "q" "k" "sonar"
      (.exn "rate limited") (by decide) (by decide)⟩

/-- Counterexample to claim C3: at a missing credential, both variants
leave the history exactly as it was — in neither variant is the user
message already appended before the credential check, contradicting the
final clause of the claim. -/
theorem C3_counterexample :
    (local_turn [] "q" "" (.ok []) []).messages = [] ∧
    (local_turn [] "q" "" (.ok []) []).searchCalled = false ∧
    (remote_turn [] "q" "" "sonar" (.exn "e")).messages = [] ∧
    (remote_turn [] "q" "" "sonar" (.exn "e")).payload = none := by
  decide

/-- Claim C3 as amended: with an absent credential, in both variants no
network call is made, a visible error state is surfaced, the turn halts,
and nothing at all is appended to the history — the credential check
precedes the user-message append in both variants, so not even the user
turn is stored. -/
theorem C3_missing_credential_aborts_before_any_append
    (messages : List Turn) (prompt model : String)
    (net : TavilyOutcome) (stream : List OllamaChunk) (hnet : HttpOutcome) :
    (local_turn messages prompt "" net stream).messages = messages ∧
    (local_turn messages prompt "" net stream).searchCalled = false ∧
    (local_turn messages prompt "" net stream).errorShown.isSome = true ∧
    (local_turn messages prompt "" net stream).halted = true ∧
    (remote_turn messages prompt "" model hnet).messages = messages ∧
    (remote_turn messages prompt "" model hnet).payload = none ∧
    (remote_turn messages prompt "" model hnet).errorShown.isSome = true ∧
    (remote_turn messages prompt "" model hnet).halted = true :=
  ⟨rfl, rfl, rfl, rfl, rfl, rfl, rfl, rfl⟩

/-- Claim C4: whatever a turn appends to the history is a suffix in which
every assistant turn carries exactly the citations produced for that very
turn — the search citations in the local variant, the API-returned
citations (or the empty initializer) in the remote variant; no citations
from another turn can appear. -/
theorem C4_assistant_citations_match_triggering_turn
    (messages : List Turn) (prompt key model : String)
    (net : TavilyOutcome) (stream : List OllamaChunk) (hnet : HttpOutcome) :
    (∃ suffix, (local_turn messages prompt key net stream).messages
        = messages ++ suffix ∧
      ∀ t ∈ suffix, t.role = "assistant" →
        t.citations = some (localTurnCitations net)) ∧
    (∃ suffix, (remote_turn messages prompt key model hnet).messages
        = messages ++ suffix ∧
      ∀ t ∈ suffix, t.role = "assistant" →
        t.citations = some (remoteTurnCitations hnet)) := by
  constructor
  · cases hk : key.isEmpty with
    | true => exact ⟨[], by simp [local_turn, hk], by simp⟩
    | false =>
        cases hc : isFalsyContext (search_web net).1 with
        | true =>
            refine ⟨[userTurn prompt], by simp [local_turn, hk, hc], ?_⟩
            intro t ht hrole
            simp at ht; subst ht
            simp [userTurn] at hrole
        | false =>
            refine ⟨[userTurn prompt,
              { role := "assistant", content := drainStream stream,
                citations := some (search_web net).2 }],
              by simp [local_turn, hk, hc], ?_⟩
            intro t ht hrole
            simp at ht
            rcases ht with rfl | rfl
            · simp [userTurn] at hrole
            · rfl
  · cases hk : key.isEmpty with
    | true => exact ⟨[], by simp [remote_turn, hk], by simp⟩
    | false =>
        cases hq : query_perplexity hnet with
        | errorDict m =>
            refine ⟨[userTurn prompt,
              { role := "assistant", content := "", citations := some [] }],
              by simp [remote_turn, hk, hq], ?_⟩
            intro t ht hrole
            simp at ht
            rcases ht with rfl | rfl
            · simp [userTurn] at hrole
            · simp [remoteTurnCitations, hq]
        | body b =>
            cases hb : b.error with
            | some m =>
                refine ⟨[userTurn prompt,
                  { role := "assistant", content := "", citations := some [] }],
                  by simp [remote_turn, hk, hq, hb], ?_⟩
                intro t ht hrole
                simp at ht
                rcases ht with rfl | rfl
                · simp [userTurn] at hrole
                · simp [remoteTurnCitations, hq, hb]
            | none =>
                refine ⟨[userTurn prompt,
                  { role := "assistant", content := b.choices0_message_content,
                    citations := some (b.citations.getD []) }],
                  by simp [remote_turn, hk, hq, hb], ?_⟩
                intro t ht hrole
                simp at ht
                rcases ht with rfl | rfl
                · simp [userTurn] at hrole
                · simp [remoteTurnCitations, hq, hb]

/-- Claim C8: query_perplexity is a total function of the call outcome —
no exception escapes — and its value is the parsed response JSON exactly
on a success status with a parseable body, and a normalized error dict
carrying the failure description in every other case: a raised request, a
non-success status, or an unparseable body. -/
theorem C8_query_perplexity_total_error_shape :
    (∀ msg, query_perplexity (.exn msg) = .errorDict msg) ∧
    (∀ r : HttpResponse, is2xx r.status = false →
      query_perplexity (.resp r) = .errorDict r.httpErrMsg) ∧
    (∀ (r : HttpResponse) (b : ApiBody), is2xx r.status = true →
      r.body = some b → query_perplexity (.resp r) = .body b) ∧
    (∀ r : HttpResponse, is2xx r.status = true → r.body = none →
      query_perplexity (.resp r) = .errorDict r.jsonErrMsg) := by
  refine ⟨fun msg => rfl, ?_, ?_, ?_⟩ <;> intros <;> simp [query_perplexity, *]

/-- Witness for C8 at a concrete non-success status. -/
theorem C8_witness :
    (is2xx 429 = false) ∧
    query_perplexity (.resp ⟨429, some ⟨none, "", none⟩, "rate limited", "bad json"⟩)
      = .errorDict "rate limited" :=
  ⟨by decide,
    C8_query_perplexity_total_error_shape.2.1
      ⟨429, some ⟨none, "", none⟩, "rate limited", "bad json"⟩ (by decide)⟩

/-- Claim C9: whenever a request is sent, its payload carries the model
chosen from the two sidebar options, return_citations set to true, and as
its messages the fixed system instruction first, followed by every stored
turn — the entire history including the just-appended user turn — projected
to ordered role and content pairs. -/
theorem C9_payload_full_history_system_first
    (messages : List Turn) (prompt key model : String) (net : HttpOutcome)
    (hkey : key.isEmpty = false) (hmodel : model ∈ modelOptions) :
    (remote_turn messages prompt key model net).payload
      = some { model := model,
               messages := ("system", system_instruction)
                 :: (messages ++ [userTurn prompt]).map roleContent,
               return_citations := true } ∧
    (model = "sonar" ∨ model = "sonar-reasoning") := by
  refine ⟨?_, ?_⟩
  · rw [remote_turn_payload_some messages prompt key model net hkey]; rfl
  · simpa [modelOptions] using hmodel

/-- Witness for C9 at a concrete one-turn history. -/
theorem C9_witness :
    (("k" : String).isEmpty = false) ∧
    (("sonar" : String) ∈ modelOptions) ∧
    ((remote_turn [userTurn "hi"] "q" "k" "sonar" (.exn "e")).payload
      = some { model := "sonar",
               messages := ("system", system_instruction)
                 :: ([userTurn "hi"] ++ [userTurn "q"]).map roleContent,
               return_citations := true } ∧
    (("sonar" : String) = "sonar" ∨ ("sonar" : String) = "sonar-reasoning")) :=
  ⟨by decide, by decide,
    C9_payload_full_history_system_first [userTurn "hi"] "q" "k" "sonar"
      (.exn "e") (by decide) (by decide)⟩

/-- Claim C10: the request payload depends on stored turns only through
their role and content projections — two histories whose turns differ only
in attached citation lists produce the identical payload, so stored
citations are never forwarded back to the API. -/
theorem C10_payload_ignores_stored_citations
    (h1 h2 : List Turn) (prompt key model : String) (net : HttpOutcome)
    (hsame : h1.map roleContent = h2.map roleContent) :
    (remote_turn h1 prompt key model net).payload
      = (remote_turn h2 prompt key model net).payload := by
  cases hk : key.isEmpty with
  | true =>
      rw [remote_turn_payload_none h1 prompt key model net hk,
        remote_turn_payload_none h2 prompt key model net hk]
  | false =>
      rw [remote_turn_payload_some h1 prompt key model net hk,
        remote_turn_payload_some h2 prompt key model net hk]
      simp [remotePayload, List.map_append, hsame]

/-- Witness for C10: two one-turn histories differing only in citations. -/
theorem C10_witness :
    (([⟨"assistant", "a", some ["x"]⟩] : List Turn).map roleContent
      = ([⟨"assistant", "a", some ["y", "z"]⟩] : List Turn).map roleContent) ∧
    (remote_turn [⟨"assistant", "a", some ["x"]⟩] "q" "k" "sonar" (.exn "e")).payload
      = (remote_turn [⟨"assistant", "a", some ["y", "z"]⟩] "q" "k" "sonar" (.exn "e")).payload :=
  ⟨by decide,
    C10_payload_ignores_stored_citations
      [⟨"assistant", "a", some ["x"]⟩] [⟨"assistant", "a", some ["y", "z"]⟩]
      "q" "k" "sonar" (.exn "e") (by decide)⟩

end FinanceAgent
